import Mathlib

/-!
Verification of the tool-descriptor contract of the `python_script_runner`
repository.

The repository defines two near-identical base classes
(`PythonScriptRunnerTool` in `tools/base.py` and `CodeSandboxTool` in
`tools/codesandbox_base.py`), variant factories producing concrete tool
descriptors (`tools/script_runner.py`, `tools/codesandbox_runner.py`,
`tools/codesandbox_sdk_runner.py`) and registrar classes that register the
descriptors with an external tool registry.

Modelling conventions:
* An `Arg` mirrors `kubiya_sdk.tools.Arg` as used here: a name, a human
  description and a `required` flag.
* An argument map (`Dict[str, Any]` in the source) is modelled as a partial
  map `String → Option String`: in this framework every tool argument value
  is a string substituted into a shell template, and Python truthiness of a
  string is "non-empty".
* The auxiliary resources `COMMON_FILES` / `COMMON_ENV` come from a
  `common` module that is not part of the sources; no claim below depends
  on them, so the corresponding constructor fields are omitted.
* Literal braces and apostrophes occurring inside the embedded script text
  are written with the escapes `\x7b`, `\x7d` and `\x27`.
-/

/-- Argument Schema: one declared parameter of a tool (`kubiya_sdk.tools.Arg`
as the repository uses it). -/
structure Arg where
  name : String
  description : String
  required : Bool
deriving DecidableEq

/-- Caller-supplied argument map (`Dict[str, Any]` restricted to the string
values this framework passes): `a n = none` models "key `n` not in the dict". -/
def ArgMap : Type := String → Option String

/-- Python truthiness of a looked-up value: a present, non-empty string.
`truthyOpt none = false` corresponds to the key being absent. -/
def truthyOpt : Option String → Bool
  | some v => v != ""
  | none => false

/-- The membership test `arg in args` of the Python source. -/
def ArgMap.contains (args : ArgMap) (n : String) : Bool :=
  (args n).isSome

/-- Adding one key to a dict (used to state monotonicity of validation). -/
def ArgMap.insert (a : ArgMap) (k v : String) : ArgMap :=
  fun n => if n = k then some v else a n

/-- Removing one key from a dict (used to state that an explicitly empty
required value behaves like an omitted one). -/
def ArgMap.erase (a : ArgMap) (k : String) : ArgMap :=
  fun n => if n = k then none else a n

/-- tools/base.py line 4. -/
def PYTHON_SCRIPT_RUNNER_ICON_URL : String :=
  "https://cdn.worldvectorlogo.com/logos/python-5.svg"

/-- tools/codesandbox_base.py line 5. -/
def CODESANDBOX_ICON_URL : String := "https://codesandbox.io/favicon.ico"

/-- tools/base.py lines 32-58: the `PythonScriptRunnerTool` base class.
Fields are those set by `__init__` (the `with_files` / `env` auxiliary
resources from the absent `common` module are omitted; `mermaid` and the
class-level defaults are cosmetic). -/
structure PythonScriptRunnerTool where
  name : String
  description : String
  content : String
  args : List Arg
  image : String
  icon_url : String
  type : String
  secrets : List String

/-- tools/base.py lines 44-58: `PythonScriptRunnerTool.__init__`.
`argsOpt` models the `args=None` parameter; `args or []` maps both `None`
and `[]` to `[]`, which is exactly `Option.getD []`. The Python default for
`image` is `"python:3.11-slim"`; call sites below pass it explicitly. -/
def PythonScriptRunnerTool.init (name description content : String)
    (argsOpt : Option (List Arg)) (image : String) : PythonScriptRunnerTool :=
  { name := name
    description := description
    content := content
    args := argsOpt.getD []
    image := image
    icon_url := PYTHON_SCRIPT_RUNNER_ICON_URL
    type := "docker"
    secrets := ["CODE_SANDBOX_API"] }

/-- tools/base.py lines 64-66: `get_content`. -/
def PythonScriptRunnerTool.get_content (self : PythonScriptRunnerTool) : String :=
  self.content

/-- tools/base.py lines 72-75: `validate_args`.
`required_args = [arg.name for arg in self.args if arg.required]` then
`all(arg in args and args[arg] for arg in required_args)`. -/
def PythonScriptRunnerTool.validate_args (self : PythonScriptRunnerTool)
    (args : ArgMap) : Bool :=
  let required_args := (self.args.filter (fun arg => arg.required)).map (fun arg => arg.name)
  required_args.all (fun arg => args.contains arg && truthyOpt (args arg))

/-- tools/base.py lines 77-86: `get_error_message`. The loop appends
`arg.name` whenever `arg.required and (arg.name not in args or not
args[arg.name])`; the collected list is rendered comma-separated. -/
def PythonScriptRunnerTool.get_error_message (self : PythonScriptRunnerTool)
    (args : ArgMap) : Option String :=
  let missing_args :=
    (self.args.filter
      (fun arg => arg.required && (!args.contains arg.name || !truthyOpt (args arg.name)))).map
      (fun arg => arg.name)
  if missing_args.isEmpty then none
  else some ("Missing required arguments: " ++ String.intercalate ", " missing_args)

/-- tools/codesandbox_base.py lines 47-83: the text of the f-string
`enhanced_content` that precedes the interpolated `content` (the Python
`{{` / `}}` escapes denote the literal braces written `\x7b` / `\x7d`
here; apostrophes are written `\x27`). -/
def csbPreamble : String :=
  "\n        #!/bin/bash\n        set -e\n        \n" ++
  "        # Create working directory for Node.js project\n" ++
  "        mkdir -p /tmp/codesandbox_project\n" ++
  "        cd /tmp/codesandbox_project\n        \n" ++
  "        # Initialize npm project if package.json doesn\x27t exist\n" ++
  "        if [ ! -f package.json ]; then\n" ++
  "            echo \"📦 Initializing npm project...\"\n" ++
  "            npm init -y >/dev/null 2>&1\n" ++
  "        fi\n        \n" ++
  "        # Install CodeSandbox SDK locally\n" ++
  "        echo \"📦 Installing CodeSandbox SDK...\"\n" ++
  "        npm install @codesandbox/sdk >/dev/null 2>&1 || \x7b\n" ++
  "            echo \"❌ Failed to install CodeSandbox SDK\"\n" ++
  "            exit 1\n" ++
  "        \x7d\n" ++
  "        echo \"✅ CodeSandbox SDK installed successfully\"\n        \n" ++
  "        # Validate API key\n" ++
  "        if [ -z \"$CSB_API_KEY\" ]; then\n" ++
  "            echo \"❌ CSB_API_KEY environment variable is not set\"\n" ++
  "            echo \"\"\n" ++
  "            echo \"To configure the CodeSandbox API key:\"\n" ++
  "            echo \"1. Go to https://codesandbox.io/dashboard/settings\"\n" ++
  "            echo \"2. Navigate to \x27API Keys\x27 or \x27Personal Access Tokens\x27\"\n" ++
  "            echo \"3. Create a new API key\"\n" ++
  "            echo \"4. Set the CSB_API_KEY environment variable\"\n" ++
  "            echo \"\"\n" ++
  "            echo \"Note: You need a CodeSandbox Pro plan to access the API\"\n" ++
  "            exit 1\n" ++
  "        fi\n        \n        "

/-- tools/codesandbox_base.py lines 83-84: the f-string text after the
interpolated `content` (a newline and the closing indentation). -/
def csbTail : String := "\n        "

/-- tools/codesandbox_base.py lines 33-97: the `CodeSandboxTool` base class
(same field conventions as `PythonScriptRunnerTool` above). -/
structure CodeSandboxTool where
  name : String
  description : String
  content : String
  args : List Arg
  image : String
  icon_url : String
  type : String
  secrets : List String

/-- tools/codesandbox_base.py lines 45-97: `CodeSandboxTool.__init__` builds
`enhanced_content` by wrapping the supplied `content` in the SDK-setup
preamble and passes it (not the raw `content`) to the superclass. The
Python default for `image` is `"node:18-alpine"`. -/
def CodeSandboxTool.init (name description content : String)
    (argsOpt : Option (List Arg)) (image : String) : CodeSandboxTool :=
  let enhanced_content := csbPreamble ++ content ++ csbTail
  { name := name
    description := description
    content := enhanced_content
    args := argsOpt.getD []
    image := image
    icon_url := CODESANDBOX_ICON_URL
    type := "docker"
    secrets := ["CSB_API_KEY"] }

/-- tools/codesandbox_base.py lines 103-105: `get_content`. -/
def CodeSandboxTool.get_content (self : CodeSandboxTool) : String :=
  self.content

/-- tools/codesandbox_base.py lines 111-114: `CodeSandboxTool.validate_args`
(textually identical to the base.py version). -/
def CodeSandboxTool.validate_args (self : CodeSandboxTool) (args : ArgMap) : Bool :=
  let required_args := (self.args.filter (fun arg => arg.required)).map (fun arg => arg.name)
  required_args.all (fun arg => args.contains arg && truthyOpt (args arg))

/-- tools/codesandbox_base.py lines 116-125: `CodeSandboxTool.get_error_message`
(textually identical to the base.py version). -/
def CodeSandboxTool.get_error_message (self : CodeSandboxTool) (args : ArgMap) : Option String :=
  let missing_args :=
    (self.args.filter
      (fun arg => arg.required && (!args.contains arg.name || !truthyOpt (args arg.name)))).map
      (fun arg => arg.name)
  if missing_args.isEmpty then none
  else some ("Missing required arguments: " ++ String.intercalate ", " missing_args)

/-- The common body of the two (duplicated) `validate_args` methods, over the
declared argument list alone; agrees definitionally with both methods. -/
def validateList (argsDecl : List Arg) (args : ArgMap) : Bool :=
  let required_args := (argsDecl.filter (fun arg => arg.required)).map (fun arg => arg.name)
  required_args.all (fun arg => args.contains arg && truthyOpt (args arg))

/-- The common body of the two (duplicated) `get_error_message` methods. -/
def errorMessageList (argsDecl : List Arg) (args : ArgMap) : Option String :=
  let missing_args :=
    (argsDecl.filter
      (fun arg => arg.required && (!args.contains arg.name || !truthyOpt (args arg.name)))).map
      (fun arg => arg.name)
  if missing_args.isEmpty then none
  else some ("Missing required arguments: " ++ String.intercalate ", " missing_args)

/-- Specification-side predicate: every required declared argument is present
with a non-empty value. -/
def RequiredOk (argsDecl : List Arg) (a : ArgMap) : Prop :=
  ∀ arg ∈ argsDecl, arg.required = true → ∃ v, a arg.name = some v ∧ v ≠ ""

/-- The names of the declared required arguments, in declared order (the
`required_args` local of `validate_args`). -/
def requiredNames (argsDecl : List Arg) : List String :=
  (argsDecl.filter (fun arg => arg.required)).map (fun arg => arg.name)

/-- The ordered list of declared required argument names that are absent from
`a` or mapped to an empty value (the `missing_args` local of
`get_error_message`, with the presence test folded away). -/
def missingNames (argsDecl : List Arg) (a : ArgMap) : List String :=
  (argsDecl.filter (fun arg => arg.required && !truthyOpt (a arg.name))).map
    (fun arg => arg.name)

/-! Exception-aware embedding of the validation methods, used to show they
are total: Python dict subscription can raise `KeyError`, and the methods
guard every subscription behind a short-circuited membership test. -/

/-- The one Python exception a dict lookup can raise here. -/
inductive PyErr where
  | keyError (k : String)
deriving DecidableEq

/-- Python dict subscription `args[k]`: raises `KeyError` when the key is
absent. -/
def ArgMap.getItem (a : ArgMap) (k : String) : Except PyErr String :=
  match a k with
  | some v => Except.ok v
  | none => Except.error (PyErr.keyError k)

/-- The generator element `arg in args and args[arg]` of `validate_args`,
with the short-circuit of Python `and` made explicit: the subscription is
evaluated only when the membership test succeeded. -/
def checkOneE (a : ArgMap) (n : String) : Except PyErr Bool :=
  if a.contains n then do
    let v ← a.getItem n
    pure (v != "")
  else pure false

/-- Python `all(...)` over a generator whose elements may raise
(short-circuits at the first false element). -/
def allE (p : String → Except PyErr Bool) : List String → Except PyErr Bool
  | [] => Except.ok true
  | n :: ns => do
    let b ← p n
    if b then allE p ns else pure false

/-- Exception-aware form of tools/base.py lines 72-75. -/
def PythonScriptRunnerTool.validate_argsE (self : PythonScriptRunnerTool)
    (args : ArgMap) : Except PyErr Bool :=
  let required_args := (self.args.filter (fun arg => arg.required)).map (fun arg => arg.name)
  allE (fun arg => checkOneE args arg) required_args

/-- The loop condition `arg.required and (arg.name not in args or not
args[arg.name])` of `get_error_message`, with both short-circuits explicit. -/
def missingOneE (a : ArgMap) (arg : Arg) : Except PyErr Bool :=
  if arg.required then
    if !a.contains arg.name then pure true
    else do
      let v ← a.getItem arg.name
      pure (v == "")
  else pure false

/-- The `missing_args`-collecting loop of `get_error_message`, element tests
may raise. -/
def collectMissingE (a : ArgMap) : List Arg → Except PyErr (List String)
  | [] => Except.ok []
  | arg :: rest => do
    let b ← missingOneE a arg
    let tail ← collectMissingE a rest
    if b then pure (arg.name :: tail) else pure tail

/-- Exception-aware form of tools/base.py lines 77-86. -/
def PythonScriptRunnerTool.get_error_messageE (self : PythonScriptRunnerTool)
    (args : ArgMap) : Except PyErr (Option String) := do
  let missing_args ← collectMissingE args self.args
  if missing_args.isEmpty then pure none
  else pure (some ("Missing required arguments: " ++ String.intercalate ", " missing_args))

/-- Report of one registration failure: the descriptor name plus the error
detail, mirroring the registrar's `except` message before the re-raise. -/
structure RegFailure (ε : Type) where
  tool_name : String
  detail : ε
deriving DecidableEq

/-- The registration loop shared by the Tool Set classes
(tools/script_runner.py lines 23-29, tools/codesandbox_sdk_runner.py lines
24-30, tools/codesandbox_runner.py lines 24-30): register each descriptor in
declared order against the external registry `reg`; on the first failure,
report the descriptor name and error detail and propagate the failure,
performing no further registrations. `nm` extracts a descriptor's name. -/
def registerAll {α σ ε : Type} (nm : α → String) (reg : σ → α → Except ε σ) :
    σ → List α → Except (RegFailure ε) σ
  | s, [] => Except.ok s
  | s, t :: ts =>
    match reg s t with
    | Except.ok s2 => registerAll nm reg s2 ts
    | Except.error e => Except.error { tool_name := nm t, detail := e }

/-- codesandbox_runner.py lines 433-437: the declared arguments of the
`execute_codesandbox` descriptor. -/
def execute_codesandbox_args : List Arg :=
  [{ name := "script_content"
     description := "Python script content to execute"
     required := true },
   { name := "sandbox_id"
     description := "Existing CodeSandbox ID (optional)"
     required := false },
   { name := "sandbox_name"
     description := "Sandbox name to find or create (default: python-execution)"
     required := false }]

/-- codesandbox_sdk_runner.py lines 401-404: the declared arguments of the
`execute_codesandbox_sdk` descriptor. -/
def execute_codesandbox_sdk_args : List Arg :=
  [{ name := "sandbox_id"
     description := "Existing sandbox ID to execute script in"
     required := true },
   { name := "script_content"
     description := "Python script content (only used as fallback if main.py doesn\x27t exist)"
     required := false }]

/-- script_runner.py lines 156-159: the declared arguments of the
`python_script_runner` descriptor. -/
def run_python_script_args : List Arg :=
  [{ name := "script_path"
     description := "Path to the Python script file to execute"
     required := false },
   { name := "script_content"
     description := "Python script content to execute directly (alternative to script_path)"
     required := false }]

/-- script_runner.py line 38: the description of the `python_script_runner`
descriptor. -/
def run_python_script_description : String :=
  "Execute Python scripts with automatic installation of common libraries (pandas, openpyxl, lxml, boto3). Provide the script path or script content to run."

/-! Concrete fixtures used by the witness theorems. -/

/-- A two-argument schema as in spec scenario A (one required, one optional). -/
def sampleArgs : List Arg :=
  [{ name := "script_content", description := "Python script content to run", required := true },
   { name := "sandbox_name", description := "Name for the sandbox", required := false }]

/-- A map supplying the required argument with a non-empty value. -/
def sampleMapOk : ArgMap :=
  fun n => if n = "script_content" then some "print(1)" else none

/-- A map supplying the required argument explicitly as the empty string. -/
def sampleMapEmpty : ArgMap :=
  fun n => if n = "script_content" then some "" else none

/-- A `PythonScriptRunnerTool` built over `sampleArgs`. -/
def samplePSR : PythonScriptRunnerTool :=
  PythonScriptRunnerTool.init "t" "d" "body" (some sampleArgs) "python:3.11-slim"

/-- A `CodeSandboxTool` built over the same `sampleArgs`. -/
def sampleCSB : CodeSandboxTool :=
  CodeSandboxTool.init "t" "d" "body" (some sampleArgs) "node:18-alpine"

/-- A demonstration registry for the witness of the registration claim: the
state is the list of registered names, and re-registering a name fails. -/
def demoRegister (s : List String) (t : String) : Except String (List String) :=
  if s.contains t then Except.error "duplicate name" else Except.ok (s ++ [t])

/-! Theorems. -/

theorem PSR_validate_args_eq (p : PythonScriptRunnerTool) (a : ArgMap) :
    p.validate_args a = validateList p.args a := rfl

theorem PSR_get_error_message_eq (p : PythonScriptRunnerTool) (a : ArgMap) :
    p.get_error_message a = errorMessageList p.args a := rfl

theorem CSB_validate_args_eq (c : CodeSandboxTool) (a : ArgMap) :
    c.validate_args a = validateList c.args a := rfl

theorem CSB_get_error_message_eq (c : CodeSandboxTool) (a : ArgMap) :
    c.get_error_message a = errorMessageList c.args a := rfl

/-- A looked-up value is truthy exactly when the key maps to a non-empty string. -/
theorem truthyOpt_iff (o : Option String) :
    truthyOpt o = true ↔ ∃ v, o = some v ∧ v ≠ "" := by
  cases o with
  | none => simp [truthyOpt]
  | some v => simp [truthyOpt]

/-- The combined membership-and-truthiness check reduces to `truthyOpt`
(absence already makes `truthyOpt` false). -/
theorem contains_and_truthy (a : ArgMap) (n : String) :
    (a.contains n && truthyOpt (a n)) = truthyOpt (a n) := by
  unfold ArgMap.contains
  cases h : a n with
  | none => simp [truthyOpt]
  | some v => simp [truthyOpt]

theorem validateList_iff (argsDecl : List Arg) (a : ArgMap) :
    validateList argsDecl a = true ↔ RequiredOk argsDecl a := by
  unfold validateList RequiredOk
  simp only [List.all_eq_true, List.mem_map, List.mem_filter]
  constructor
  · intro h arg hmem hreq
    have := h arg.name ⟨arg, ⟨hmem, hreq⟩, rfl⟩
    rw [contains_and_truthy] at this
    exact (truthyOpt_iff (a arg.name)).mp this
  · rintro h n ⟨arg, ⟨hmem, hreq⟩, rfl⟩
    rw [contains_and_truthy]
    exact (truthyOpt_iff (a arg.name)).mpr (h arg hmem hreq)

/-- C1: for every Tool Descriptor (of either base class) and every argument
map `a`, `validate_args a` returns `true` if and only if every declared
required Argument Schema name is in `a` with a non-empty (truthy) value;
the right-hand side mentions only required schemas, so optional arguments,
present or absent, never affect the result. -/
theorem C1_validate_iff_required_nonempty (p : PythonScriptRunnerTool)
    (c : CodeSandboxTool) (a : ArgMap) :
    (p.validate_args a = true ↔ RequiredOk p.args a) ∧
    (c.validate_args a = true ↔ RequiredOk c.args a) :=
  ⟨by rw [PSR_validate_args_eq p]; exact validateList_iff p.args a,
   by rw [CSB_validate_args_eq c]; exact validateList_iff c.args a⟩

/-- Absence-or-falsiness collapses to falsiness of the lookup: the disjunct
`arg.name not in args` is already covered by `truthyOpt` being false on `none`. -/
theorem not_contains_or_not_truthy (a : ArgMap) (n : String) :
    (!a.contains n || !truthyOpt (a n)) = !truthyOpt (a n) := by
  unfold ArgMap.contains
  cases h : a n <;> simp [truthyOpt]

theorem missing_filter_congr (argsDecl : List Arg) (a : ArgMap) :
    argsDecl.filter
        (fun arg => arg.required && (!a.contains arg.name || !truthyOpt (a arg.name)))
      = argsDecl.filter (fun arg => arg.required && !truthyOpt (a arg.name)) := by
  have h : (fun arg : Arg => arg.required && (!a.contains arg.name || !truthyOpt (a arg.name)))
      = fun arg : Arg => arg.required && !truthyOpt (a arg.name) := by
    funext arg
    rw [not_contains_or_not_truthy]
  rw [h]

theorem errorMessageList_eq (argsDecl : List Arg) (a : ArgMap) :
    errorMessageList argsDecl a =
      if (missingNames argsDecl a).isEmpty then none
      else some ("Missing required arguments: " ++
        String.intercalate ", " (missingNames argsDecl a)) := by
  unfold errorMessageList missingNames
  rw [missing_filter_congr]

theorem missingNames_eq_nil_iff (argsDecl : List Arg) (a : ArgMap) :
    missingNames argsDecl a = [] ↔ validateList argsDecl a = true := by
  rw [validateList_iff]
  unfold missingNames RequiredOk
  rw [List.map_eq_nil_iff, List.filter_eq_nil_iff]
  simp only [Bool.and_eq_true, Bool.not_eq_true', not_and]
  constructor
  · intro h arg hmem hreq
    refine (truthyOpt_iff _).mp ?_
    cases hb : truthyOpt (a arg.name) with
    | true => rfl
    | false => exact absurd hb (h arg hmem hreq)
  · intro h arg hmem hreq hb
    have := (truthyOpt_iff _).mpr (h arg hmem hreq)
    rw [this] at hb
    exact absurd hb (by decide)

theorem errorMessageList_none_iff (argsDecl : List Arg) (a : ArgMap) :
    errorMessageList argsDecl a = none ↔ validateList argsDecl a = true := by
  rw [errorMessageList_eq, ← missingNames_eq_nil_iff]
  by_cases h : missingNames argsDecl a = []
  · simp [h]
  · simp [h, List.isEmpty_iff]

theorem mem_missingNames (argsDecl : List Arg) (a : ArgMap) (n : String) :
    n ∈ missingNames argsDecl a ↔
      ∃ arg, arg ∈ argsDecl ∧ arg.required = true ∧ arg.name = n ∧
        truthyOpt (a n) = false := by
  unfold missingNames
  simp only [List.mem_map, List.mem_filter, Bool.and_eq_true, Bool.not_eq_true']
  constructor
  · rintro ⟨arg, ⟨hmem, hreq, htr⟩, rfl⟩
    exact ⟨arg, hmem, hreq, rfl, htr⟩
  · rintro ⟨arg, hmem, hreq, rfl, htr⟩
    exact ⟨arg, ⟨hmem, hreq, htr⟩, rfl⟩

theorem missingNames_sublist (argsDecl : List Arg) (a : ArgMap) :
    List.Sublist (missingNames argsDecl a) (argsDecl.map (fun arg => arg.name)) := by
  unfold missingNames
  exact (List.filter_sublist argsDecl).map (fun arg => arg.name)

/-- On an invalid map the shared `get_error_message` body produces the
sentence over the missing-name list. -/
theorem errorMessageList_of_invalid (argsDecl : List Arg) (a : ArgMap)
    (hfalse : validateList argsDecl a = false) :
    errorMessageList argsDecl a =
      some ("Missing required arguments: " ++
        String.intercalate ", " (missingNames argsDecl a)) := by
  have hne : missingNames argsDecl a ≠ [] := by
    intro hnil
    rw [(missingNames_eq_nil_iff argsDecl a).mp hnil] at hfalse
    exact absurd hfalse (by decide)
  have hempty : (missingNames argsDecl a).isEmpty = false := by
    rcases h : missingNames argsDecl a with _ | ⟨x, xs⟩
    · exact absurd h hne
    · rfl
  rw [errorMessageList_eq, hempty]
  rfl

/-- Full behaviour of the shared `get_error_message` body: no message exactly
on valid maps, otherwise one sentence over the ordered, duplicate-free list
of exactly the missing required names. -/
theorem errorMessageList_spec (argsDecl : List Arg) (a : ArgMap)
    (hnodup : (argsDecl.map (fun arg => arg.name)).Nodup) :
    (errorMessageList argsDecl a = none ↔ validateList argsDecl a = true) ∧
    (validateList argsDecl a = false →
      errorMessageList argsDecl a =
        some ("Missing required arguments: " ++
          String.intercalate ", " (missingNames argsDecl a)) ∧
      (∀ n, n ∈ missingNames argsDecl a ↔
        ∃ arg, arg ∈ argsDecl ∧ arg.required = true ∧ arg.name = n ∧
          truthyOpt (a n) = false) ∧
      List.Sublist (missingNames argsDecl a) (argsDecl.map (fun arg => arg.name)) ∧
      (missingNames argsDecl a).Nodup) := by
  refine ⟨errorMessageList_none_iff argsDecl a, fun hfalse => ?_⟩
  exact ⟨errorMessageList_of_invalid argsDecl a hfalse,
    fun n => mem_missingNames argsDecl a n, missingNames_sublist argsDecl a,
    hnodup.sublist (missingNames_sublist argsDecl a)⟩

/-- C2: for every Tool Descriptor (of either base class) whose declared
argument names are distinct, `get_error_message a` is `None` exactly when
`validate_args a` is `true`; otherwise it is the single sentence
`"Missing required arguments: "` followed by the comma-separated list of
precisely the required names absent or empty in `a`, in declared order and
without duplicates. -/
theorem C2_error_message_exactly_missing (p : PythonScriptRunnerTool)
    (c : CodeSandboxTool) (a : ArgMap)
    (hp : (p.args.map (fun arg => arg.name)).Nodup)
    (hc : (c.args.map (fun arg => arg.name)).Nodup) :
    ((p.get_error_message a = none ↔ p.validate_args a = true) ∧
      (p.validate_args a = false →
        p.get_error_message a =
          some ("Missing required arguments: " ++
            String.intercalate ", " (missingNames p.args a)) ∧
        (∀ n, n ∈ missingNames p.args a ↔
          ∃ arg, arg ∈ p.args ∧ arg.required = true ∧ arg.name = n ∧
            truthyOpt (a n) = false) ∧
        List.Sublist (missingNames p.args a) (p.args.map (fun arg => arg.name)) ∧
        (missingNames p.args a).Nodup)) ∧
    ((c.get_error_message a = none ↔ c.validate_args a = true) ∧
      (c.validate_args a = false →
        c.get_error_message a =
          some ("Missing required arguments: " ++
            String.intercalate ", " (missingNames c.args a)) ∧
        (∀ n, n ∈ missingNames c.args a ↔
          ∃ arg, arg ∈ c.args ∧ arg.required = true ∧ arg.name = n ∧
            truthyOpt (a n) = false) ∧
        List.Sublist (missingNames c.args a) (c.args.map (fun arg => arg.name)) ∧
        (missingNames c.args a).Nodup)) := by
  constructor
  · rw [PSR_get_error_message_eq p, PSR_validate_args_eq p]
    exact errorMessageList_spec p.args a hp
  · rw [CSB_get_error_message_eq c, CSB_validate_args_eq c]
    exact errorMessageList_spec c.args a hc

theorem bool_not_and (x y : Bool) : (!(x && y)) = (!x || !y) := by
  cases x <;> cases y <;> rfl

theorem all_congr_mem (l : List String) (f g : String → Bool)
    (h : ∀ n ∈ l, f n = g n) : l.all f = l.all g := by
  induction l with
  | nil => rfl
  | cons x xs ih =>
    rw [List.all_cons, List.all_cons, h x (List.mem_cons_self x xs),
      ih (fun n hn => h n (List.mem_cons_of_mem x hn))]

/-- `validate_args` depends on the map only through the per-key
presence-and-truthiness check. -/
theorem validateList_congr (argsDecl : List Arg) (a a' : ArgMap)
    (h : ∀ k, (a.contains k && truthyOpt (a k)) = (a'.contains k && truthyOpt (a' k))) :
    validateList argsDecl a = validateList argsDecl a' := by
  unfold validateList
  exact all_congr_mem _ _ _ (fun n _ => h n)

/-- `get_error_message` depends on the map only through the same per-key check. -/
theorem errorMessageList_congr (argsDecl : List Arg) (a a' : ArgMap)
    (h : ∀ k, (a.contains k && truthyOpt (a k)) = (a'.contains k && truthyOpt (a' k))) :
    errorMessageList argsDecl a = errorMessageList argsDecl a' := by
  unfold errorMessageList
  have hp : (fun arg : Arg => arg.required && (!a.contains arg.name || !truthyOpt (a arg.name)))
      = fun arg : Arg => arg.required && (!a'.contains arg.name || !truthyOpt (a' arg.name)) := by
    funext arg
    rw [← bool_not_and, ← bool_not_and, h arg.name]
  rw [hp]

/-- A key explicitly mapped to the empty string passes the per-key check the
same way (namely, not at all) as an erased key. -/
theorem erase_check_eq (a : ArgMap) (n : String) (hempty : a n = some "") (k : String) :
    (a.contains k && truthyOpt (a k)) = ((a.erase n).contains k && truthyOpt ((a.erase n) k)) := by
  unfold ArgMap.erase ArgMap.contains
  by_cases hk : k = n
  · subst hk
    rw [hempty]
    simp [truthyOpt]
  · simp [hk]

/-- C3: supplying the empty string for a declared required argument `n` makes
`validate_args` false and puts `n` in the `get_error_message` report, and
both functions behave exactly as if the key had been omitted from the map. -/
theorem C3_empty_required_equals_omitted (p : PythonScriptRunnerTool) (a : ArgMap)
    (n : String)
    (hdecl : ∃ arg, arg ∈ p.args ∧ arg.name = n ∧ arg.required = true)
    (hempty : a n = some "") :
    p.validate_args a = false ∧
    (∃ l, p.get_error_message a =
        some ("Missing required arguments: " ++ String.intercalate ", " l) ∧ n ∈ l) ∧
    p.validate_args a = p.validate_args (a.erase n) ∧
    p.get_error_message a = p.get_error_message (a.erase n) := by
  obtain ⟨arg, hmem, hname, hreq⟩ := hdecl
  have hfalse : validateList p.args a = false := by
    cases hv : validateList p.args a with
    | false => rfl
    | true =>
      obtain ⟨v, hv2, hvne⟩ := (validateList_iff p.args a).mp hv arg hmem hreq
      rw [hname, hempty] at hv2
      exact absurd (Option.some.inj hv2).symm hvne
  have htr : truthyOpt (a n) = false := by rw [hempty]; decide
  refine ⟨by rw [PSR_validate_args_eq p]; exact hfalse, ?_, ?_, ?_⟩
  · refine ⟨missingNames p.args a, ?_, ?_⟩
    · rw [PSR_get_error_message_eq p]
      exact errorMessageList_of_invalid p.args a hfalse
    · exact (mem_missingNames p.args a n).mpr ⟨arg, hmem, hreq, hname, htr⟩
  · rw [PSR_validate_args_eq p, PSR_validate_args_eq p]
    exact validateList_congr p.args a (a.erase n) (fun k => erase_check_eq a n hempty k)
  · rw [PSR_get_error_message_eq p, PSR_get_error_message_eq p]
    exact errorMessageList_congr p.args a (a.erase n) (fun k => erase_check_eq a n hempty k)

/-- Witness for C3 at a concrete descriptor and map (spec scenario B). -/
theorem C3_witness :
    (∃ arg, arg ∈ samplePSR.args ∧ arg.name = "script_content" ∧ arg.required = true) ∧
    sampleMapEmpty "script_content" = some "" ∧
    (samplePSR.validate_args sampleMapEmpty = false ∧
      (∃ l, samplePSR.get_error_message sampleMapEmpty =
          some ("Missing required arguments: " ++ String.intercalate ", " l) ∧
        "script_content" ∈ l) ∧
      samplePSR.validate_args sampleMapEmpty
        = samplePSR.validate_args (sampleMapEmpty.erase "script_content") ∧
      samplePSR.get_error_message sampleMapEmpty
        = samplePSR.get_error_message (sampleMapEmpty.erase "script_content")) := by
  have h1 : ∃ arg, arg ∈ samplePSR.args ∧ arg.name = "script_content" ∧ arg.required = true :=
    ⟨{ name := "script_content", description := "Python script content to run", required := true },
      by decide, rfl, rfl⟩
  have h2 : sampleMapEmpty "script_content" = some "" := by decide
  exact ⟨h1, h2, C3_empty_required_equals_omitted samplePSR sampleMapEmpty "script_content" h1 h2⟩

/-- C4: the two base classes implement extensionally equal validation: any
descriptor of the one class and any descriptor of the other with the same
declared argument list agree on `validate_args` and `get_error_message` for
every argument map. -/
theorem C4_validation_extensionally_equal (p : PythonScriptRunnerTool)
    (c : CodeSandboxTool) (h : p.args = c.args) (a : ArgMap) :
    p.validate_args a = c.validate_args a ∧
    p.get_error_message a = c.get_error_message a := by
  rw [PSR_validate_args_eq p, CSB_validate_args_eq c, PSR_get_error_message_eq p,
    CSB_get_error_message_eq c, h]
  exact ⟨rfl, rfl⟩

/-- Witness for C4 at concrete descriptors of the two classes sharing one
argument list. -/
theorem C4_witness :
    samplePSR.args = sampleCSB.args ∧
    (samplePSR.validate_args sampleMapOk = sampleCSB.validate_args sampleMapOk ∧
      samplePSR.get_error_message sampleMapOk = sampleCSB.get_error_message sampleMapOk) :=
  ⟨rfl, C4_validation_extensionally_equal samplePSR sampleCSB rfl sampleMapOk⟩

/-- C5 counterexample: the `execute_codesandbox_sdk` remote-execute variant
does not declare the script content as its required argument — the list of
its required argument names is `["sandbox_id"]`, not `["script_content"]`,
so the claim fails on this descriptor. -/
theorem C5_counterexample_sdk_variant :
    (execute_codesandbox_sdk_args.filter (fun arg => arg.required)).map
        (fun arg => arg.name) = ["sandbox_id"] ∧
    ¬ ((execute_codesandbox_sdk_args.filter (fun arg => arg.required)).map
        (fun arg => arg.name) = ["script_content"]) := by
  decide

/-- C5 amended: each remote-execute variant declares exactly one required
argument; for `execute_codesandbox` it is the script content, with the
session-identifier and name arguments optional, while for
`execute_codesandbox_sdk` it is the session identifier `sandbox_id`, with
the script content (the documented fallback) its only optional argument. -/
theorem C5_amended_one_required_arg :
    ((execute_codesandbox_args.filter (fun arg => arg.required)).map
        (fun arg => arg.name) = ["script_content"] ∧
      (execute_codesandbox_args.filter (fun arg => !arg.required)).map
        (fun arg => arg.name) = ["sandbox_id", "sandbox_name"]) ∧
    ((execute_codesandbox_sdk_args.filter (fun arg => arg.required)).map
        (fun arg => arg.name) = ["sandbox_id"] ∧
      (execute_codesandbox_sdk_args.filter (fun arg => !arg.required)).map
        (fun arg => arg.name) = ["script_content"]) := by
  decide

/-- C6: registration is fail-fast: if every descriptor before `bad`
registers successfully (taking the registry state from `s` to `s2`) and
`bad` fails with error `e`, then the whole batch fails with `bad`'s name
and the error detail — and since `post` is arbitrary, no descriptor after
the failing one is ever registered. -/
theorem C6_registration_fail_fast {α σ ε : Type} (nm : α → String)
    (reg : σ → α → Except ε σ) (s s2 : σ) (pre : List α) (bad : α)
    (post : List α) (e : ε)
    (hpre : registerAll nm reg s pre = Except.ok s2)
    (hbad : reg s2 bad = Except.error e) :
    registerAll nm reg s (pre ++ bad :: post)
      = Except.error { tool_name := nm bad, detail := e } := by
  induction pre generalizing s with
  | nil =>
    have hs : s = s2 := Except.ok.inj hpre
    subst hs
    rw [List.nil_append]
    simp only [registerAll, hbad]
  | cons t ts ih =>
    simp only [registerAll] at hpre
    rw [List.cons_append]
    simp only [registerAll]
    cases hr : reg s t with
    | ok s3 =>
      rw [hr] at hpre
      exact ih s3 hpre
    | error e2 =>
      rw [hr] at hpre
      exact absurd hpre (by simp)

/-- Witness for C6 on the demonstration registry: "a" registers, a second
"a" fails with a duplicate-name error, and the following "b" is never
registered. -/
theorem C6_witness :
    registerAll (fun t => t) demoRegister [] ["a"] = Except.ok ["a"] ∧
    demoRegister ["a"] "a" = Except.error "duplicate name" ∧
    registerAll (fun t => t) demoRegister [] (["a"] ++ "a" :: ["b"])
      = Except.error { tool_name := "a", detail := "duplicate name" } := by
  refine ⟨rfl, rfl, ?_⟩
  exact C6_registration_fail_fast (fun t => t) demoRegister [] ["a"] ["a"] "a" ["b"]
    "duplicate name" rfl rfl

theorem mem_requiredNames (argsDecl : List Arg) (n : String) :
    n ∈ requiredNames argsDecl ↔
      ∃ arg, arg ∈ argsDecl ∧ arg.required = true ∧ arg.name = n := by
  unfold requiredNames
  simp only [List.mem_map, List.mem_filter]
  constructor
  · rintro ⟨arg, ⟨hmem, hreq⟩, rfl⟩
    exact ⟨arg, hmem, hreq, rfl⟩
  · rintro ⟨arg, hmem, hreq, rfl⟩
    exact ⟨arg, ⟨hmem, hreq⟩, rfl⟩

/-- `validate_args` reads the map only at the declared required names. -/
theorem validateList_restrict (argsDecl : List Arg) (a a' : ArgMap)
    (h : ∀ n ∈ requiredNames argsDecl, a' n = a n) :
    validateList argsDecl a' = validateList argsDecl a := by
  unfold validateList
  refine all_congr_mem _ _ _ (fun n hn => ?_)
  rw [contains_and_truthy, contains_and_truthy, h n hn]

theorem validateList_monotonic (argsDecl : List Arg) (a : ArgMap)
    (h : validateList argsDecl a = true) :
    (∀ k v, a k = none → validateList argsDecl (a.insert k v) = true) ∧
    (∀ a' : ArgMap, (∀ n ∈ requiredNames argsDecl, a' n = a n) →
      validateList argsDecl a' = true) := by
  have hrestrict : ∀ a' : ArgMap, (∀ n ∈ requiredNames argsDecl, a' n = a n) →
      validateList argsDecl a' = true := by
    intro a' ha'
    rw [validateList_restrict argsDecl a a' ha']
    exact h
  refine ⟨fun k v hk => hrestrict _ (fun n hn => ?_), hrestrict⟩
  unfold ArgMap.insert
  by_cases hnk : n = k
  · subst hnk
    obtain ⟨arg, hmem, hreq, hname⟩ := (mem_requiredNames argsDecl n).mp hn
    obtain ⟨v2, hv2, _⟩ := (validateList_iff argsDecl a).mp h arg hmem hreq
    rw [hname] at hv2
    rw [hv2] at hk
    exact absurd hk (by simp)
  · simp [hnk]

/-- C7: for every Tool Descriptor (of either base class), validation is
monotonic in the argument map: from a map on which `validate_args` is true,
adding any key absent from the map (with any value) keeps it true, and any
map agreeing with it on the declared required argument names still
validates — so a true result can only be turned false by changing or
removing entries at required argument names. -/
theorem C7_validate_monotonic (p : PythonScriptRunnerTool) (c : CodeSandboxTool)
    (a : ArgMap) (hp : p.validate_args a = true) (hc : c.validate_args a = true) :
    (∀ k v, a k = none → p.validate_args (a.insert k v) = true) ∧
    (∀ a' : ArgMap, (∀ n ∈ requiredNames p.args, a' n = a n) →
      p.validate_args a' = true) ∧
    (∀ k v, a k = none → c.validate_args (a.insert k v) = true) ∧
    (∀ a' : ArgMap, (∀ n ∈ requiredNames c.args, a' n = a n) →
      c.validate_args a' = true) := by
  rw [PSR_validate_args_eq p] at hp
  rw [CSB_validate_args_eq c] at hc
  obtain ⟨hp1, hp2⟩ := validateList_monotonic p.args a hp
  obtain ⟨hc1, hc2⟩ := validateList_monotonic c.args a hc
  exact ⟨fun k v hk => by rw [PSR_validate_args_eq p]; exact hp1 k v hk,
    fun a' ha' => by rw [PSR_validate_args_eq p]; exact hp2 a' ha',
    fun k v hk => by rw [CSB_validate_args_eq c]; exact hc1 k v hk,
    fun a' ha' => by rw [CSB_validate_args_eq c]; exact hc2 a' ha'⟩

/-- Witness for C7 at concrete descriptors and a concrete valid map. -/
theorem C7_witness :
    samplePSR.validate_args sampleMapOk = true ∧
    sampleCSB.validate_args sampleMapOk = true ∧
    ((∀ k v, sampleMapOk k = none →
        samplePSR.validate_args (sampleMapOk.insert k v) = true) ∧
      (∀ a' : ArgMap, (∀ n ∈ requiredNames samplePSR.args, a' n = sampleMapOk n) →
        samplePSR.validate_args a' = true) ∧
      (∀ k v, sampleMapOk k = none →
        sampleCSB.validate_args (sampleMapOk.insert k v) = true) ∧
      (∀ a' : ArgMap, (∀ n ∈ requiredNames sampleCSB.args, a' n = sampleMapOk n) →
        sampleCSB.validate_args a' = true)) := by
  have hp : samplePSR.validate_args sampleMapOk = true := by decide
  have hc : sampleCSB.validate_args sampleMapOk = true := by decide
  exact ⟨hp, hc, C7_validate_monotonic samplePSR sampleCSB sampleMapOk hp hc⟩

/-- The guarded generator element never raises: the subscription is only
reached when the membership test succeeded. -/
theorem checkOneE_ok (a : ArgMap) (n : String) :
    checkOneE a n = Except.ok (a.contains n && truthyOpt (a n)) := by
  unfold checkOneE ArgMap.contains ArgMap.getItem
  cases h : a n with
  | none => rfl
  | some v => rfl

theorem allE_ok (f : String → Bool) (p : String → Except PyErr Bool)
    (hp : ∀ n, p n = Except.ok (f n)) (l : List String) :
    allE p l = Except.ok (l.all f) := by
  induction l with
  | nil => rfl
  | cons n ns ih =>
    simp only [allE, hp n, List.all_cons]
    cases hf : f n with
    | true => exact ih
    | false => rfl

theorem validate_argsE_ok (p : PythonScriptRunnerTool) (a : ArgMap) :
    p.validate_argsE a = Except.ok (p.validate_args a) := by
  unfold PythonScriptRunnerTool.validate_argsE PythonScriptRunnerTool.validate_args
  exact allE_ok _ _ (fun n => checkOneE_ok a n) _

/-- The guarded loop condition never raises. -/
theorem missingOneE_ok (a : ArgMap) (arg : Arg) :
    missingOneE a arg
      = Except.ok (arg.required && (!a.contains arg.name || !truthyOpt (a arg.name))) := by
  unfold missingOneE ArgMap.contains ArgMap.getItem
  cases hr : arg.required with
  | false => rfl
  | true =>
    cases h : a arg.name with
    | none => rfl
    | some v => exact congrArg Except.ok (Bool.not_not (v == "")).symm

theorem collectMissingE_ok (a : ArgMap) (l : List Arg) :
    collectMissingE a l
      = Except.ok ((l.filter
          (fun arg => arg.required && (!a.contains arg.name || !truthyOpt (a arg.name)))).map
          (fun arg => arg.name)) := by
  induction l with
  | nil => rfl
  | cons arg rest ih =>
    simp only [collectMissingE, missingOneE_ok, ih, List.filter_cons]
    cases hcond : (arg.required && (!a.contains arg.name || !truthyOpt (a arg.name))) with
    | true => rfl
    | false => rfl

theorem get_error_messageE_ok (p : PythonScriptRunnerTool) (a : ArgMap) :
    p.get_error_messageE a = Except.ok (p.get_error_message a) := by
  unfold PythonScriptRunnerTool.get_error_messageE PythonScriptRunnerTool.get_error_message
  rw [collectMissingE_ok]
  generalize ((p.args.filter
      (fun arg => arg.required && (!a.contains arg.name || !truthyOpt (a arg.name)))).map
      (fun arg => arg.name)) = L
  cases L with
  | nil => rfl
  | cons x xs => rfl

/-- C8: the validation entry points are total, pure and deterministic: the
exception-aware embeddings — in which the dict subscription `args[...]` may
raise `KeyError` — always return `ok` with exactly the value of the pure
functions, so no input makes them raise; and since descriptor and map are
immutable values, calling either function twice with the same map yields
the same result. -/
theorem C8_validation_total_pure (p : PythonScriptRunnerTool) (a : ArgMap) :
    p.validate_argsE a = Except.ok (p.validate_args a) ∧
    p.get_error_messageE a = Except.ok (p.get_error_message a) ∧
    p.validate_args a = p.validate_args a ∧
    p.get_error_message a = p.get_error_message a :=
  ⟨validate_argsE_ok p a, get_error_messageE_ok p a, rfl, rfl⟩

set_option maxRecDepth 10000 in
/-- C9: the `CodeSandboxTool` constructor never stores the supplied payload
text verbatim: the stored content is the fixed SDK-setup preamble (npm
project setup, CodeSandbox SDK installation, `CSB_API_KEY` presence check),
then the payload, then the closing indentation — so the payload is a proper
substring of `get_content()` and never its entirety — while
`PythonScriptRunnerTool` stores the supplied payload unchanged. -/
theorem C9_csb_wraps_content (n d c : String) (argsOpt : Option (List Arg))
    (img img2 : String) :
    (CodeSandboxTool.init n d c argsOpt img).get_content = csbPreamble ++ c ++ csbTail ∧
    (∃ s t, (CodeSandboxTool.init n d c argsOpt img).get_content = s ++ c ++ t ∧ s ≠ "") ∧
    (CodeSandboxTool.init n d c argsOpt img).get_content ≠ c ∧
    (PythonScriptRunnerTool.init n d c argsOpt img2).get_content = c := by
  refine ⟨rfl, ⟨csbPreamble, csbTail, rfl, by decide⟩, ?_, rfl⟩
  intro h
  have hlen := congrArg String.length h
  have h1 : (CodeSandboxTool.init n d c argsOpt img).get_content
      = csbPreamble ++ c ++ csbTail := rfl
  rw [h1, String.length_append, String.length_append] at hlen
  have hpre : 0 < csbPreamble.length := by decide
  omega

/-- C10: every descriptor built by the `PythonScriptRunnerTool` constructor
— the purely local `python_script_runner` tool included — carries exactly
the secret list `["CODE_SANDBOX_API"]`, type `"docker"` and the default
image `"python:3.11-slim"`, and every descriptor built by the
`CodeSandboxTool` constructor carries exactly the secret list
`["CSB_API_KEY"]`, regardless of the name, description, content and
argument-list constructor arguments. -/
theorem C10_fixed_secrets_and_type (n d c : String) (argsOpt : Option (List Arg)) :
    ((PythonScriptRunnerTool.init n d c argsOpt "python:3.11-slim").secrets
        = ["CODE_SANDBOX_API"] ∧
      (PythonScriptRunnerTool.init n d c argsOpt "python:3.11-slim").type = "docker" ∧
      (PythonScriptRunnerTool.init n d c argsOpt "python:3.11-slim").image
        = "python:3.11-slim") ∧
    ((CodeSandboxTool.init n d c argsOpt "node:18-alpine").secrets = ["CSB_API_KEY"] ∧
      (CodeSandboxTool.init n d c argsOpt "node:18-alpine").type = "docker") ∧
    (PythonScriptRunnerTool.init "python_script_runner" run_python_script_description c
        (some run_python_script_args) "python:3.11-slim").secrets
      = ["CODE_SANDBOX_API"] :=
  ⟨⟨rfl, rfl, rfl⟩, ⟨rfl, rfl⟩, rfl⟩

/-- Witness for C2 at concrete descriptors of both classes (with distinct
declared names) and the scenario-B map. -/
theorem C2_witness :
    (samplePSR.args.map (fun arg => arg.name)).Nodup ∧
    (sampleCSB.args.map (fun arg => arg.name)).Nodup ∧
    (((samplePSR.get_error_message sampleMapEmpty = none ↔
        samplePSR.validate_args sampleMapEmpty = true) ∧
      (samplePSR.validate_args sampleMapEmpty = false →
        samplePSR.get_error_message sampleMapEmpty =
          some ("Missing required arguments: " ++
            String.intercalate ", " (missingNames samplePSR.args sampleMapEmpty)) ∧
        (∀ n, n ∈ missingNames samplePSR.args sampleMapEmpty ↔
          ∃ arg, arg ∈ samplePSR.args ∧ arg.required = true ∧ arg.name = n ∧
            truthyOpt (sampleMapEmpty n) = false) ∧
        List.Sublist (missingNames samplePSR.args sampleMapEmpty)
          (samplePSR.args.map (fun arg => arg.name)) ∧
        (missingNames samplePSR.args sampleMapEmpty).Nodup)) ∧
    ((sampleCSB.get_error_message sampleMapEmpty = none ↔
        sampleCSB.validate_args sampleMapEmpty = true) ∧
      (sampleCSB.validate_args sampleMapEmpty = false →
        sampleCSB.get_error_message sampleMapEmpty =
          some ("Missing required arguments: " ++
            String.intercalate ", " (missingNames sampleCSB.args sampleMapEmpty)) ∧
        (∀ n, n ∈ missingNames sampleCSB.args sampleMapEmpty ↔
          ∃ arg, arg ∈ sampleCSB.args ∧ arg.required = true ∧ arg.name = n ∧
            truthyOpt (sampleMapEmpty n) = false) ∧
        List.Sublist (missingNames sampleCSB.args sampleMapEmpty)
          (sampleCSB.args.map (fun arg => arg.name)) ∧
        (missingNames sampleCSB.args sampleMapEmpty).Nodup))) := by
  have hp : (samplePSR.args.map (fun arg => arg.name)).Nodup := by decide
  have hc : (sampleCSB.args.map (fun arg => arg.name)).Nodup := by decide
  exact ⟨hp, hc, C2_error_message_exactly_missing samplePSR sampleCSB sampleMapEmpty hp hc⟩
